import Mathlib

/-!
# Verification of the generation state store (`src/frontend/demo/lib/stores.ts`)

Shallow embedding of the product-card generation store. Strings are modelled by
Lean `String` (a list of characters); JavaScript `toLowerCase`/`toUpperCase`
are modelled by the ASCII case maps `Char.toLower`/`Char.toUpper`. The uniform
random perturbation `Math.floor(Math.random() * 20) - 10` of `generatePrice`
is modelled by an explicit integer parameter constrained to `[-10, 9]`, and
the outcome of `fetch` is modelled by an explicit `FetchResult` parameter.
-/

/-- JavaScript `String.prototype.includes`: substring containment. -/
def strIncludes (s pat : String) : Bool := decide (pat.data <:+: s.data)

/-- JavaScript `String.prototype.toLowerCase`, modelled as the ASCII case map
applied to every character. -/
def strToLower (s : String) : String := String.mk (s.data.map Char.toLower)

/-- JavaScript `String.prototype.split` with a single-character separator:
splits a character list at every occurrence of `sep`, keeping empty pieces,
so the result is always non-empty (`split` of the empty string is `[""]`). -/
def splitOnChar (sep : Char) : List Char → List (List Char)
  | [] => [[]]
  | c :: cs =>
    if c = sep then
      [] :: splitOnChar sep cs
    else
      match splitOnChar sep cs with
      | [] => [[c]]
      | w :: ws => (c :: w) :: ws

/-- `clothing_analysis` field of the backend response. -/
structure ClothingAnalysis where
  description : String
  tags : List String
deriving DecidableEq

/-- Backend API response (`ApiResponse` in `stores.ts`). -/
structure ApiResponse where
  success : Bool
  message : String
  clothing_analysis : ClothingAnalysis
  generated_image_url : String
  generated_image_path : String
deriving DecidableEq

/-- Frontend `ProductCard` record. -/
structure ProductCard where
  id : String
  productName : String
  price : String
  description : String
  tags : List String
  modelImage : String
  productImage : String
deriving DecidableEq

/-- A browser `File`: only its declared MIME type (`File.type`) is inspected
by the store, so that is all we model. -/
structure File where
  type : String
deriving DecidableEq

/-- The mutable fields of the Zustand store: `isGenerating`, `generatedCards`
and `error` (the spec's `lastError`). -/
structure ProductStoreState where
  isGenerating : Bool
  generatedCards : List ProductCard
  error : Option String
deriving DecidableEq

/-- One part of the multipart `FormData` body. -/
inductive FormPart where
  | filePart (field : String) (file : File)
  | textPart (field : String) (value : String)
deriving DecidableEq

/-- Outcome of the single `fetch` call, supplied as an explicit parameter:
a parsed success body, a non-2xx response (status, status text, body text),
or a transport-level rejection carrying the thrown error's message. -/
inductive FetchResult where
  | ok (resp : ApiResponse)
  | httpError (status : Nat) (statusText : String) (body : String)
  | transportError (message : String)
deriving DecidableEq

/-- The `FormData` assembled by `generateProductListing` (stores.ts:47-53).
`if (outputFilename)` is JS truthiness: the optional text part is appended
only when the name is present and non-empty. -/
def buildFormData (clothingImage modelImage : File)
    (outputFilename : Option String) : List FormPart :=
  let base := [FormPart.filePart "clothing_image" clothingImage,
               FormPart.filePart "model_image" modelImage]
  match outputFilename with
  | some s => if s = "" then base else base ++ [FormPart.textPart "output_filename" s]
  | none => base

/-- The value `generateProductListing` settles to (stores.ts:55-65): the parsed
body on success, otherwise the message of the thrown `Error`
(`API call failed: <status> <statusText> - <errorText>` for a non-ok response,
or the transport failure's own message). -/
def fetchOutcome (fr : FetchResult) : Except String ApiResponse :=
  match fr with
  | .ok resp => .ok resp
  | .httpError status statusText body =>
      .error ("API call failed: " ++ toString status ++ " " ++ statusText ++ " - " ++ body)
  | .transportError message => .error message

/-- `generateProductListing` (stores.ts:42-66): builds the multipart body and
issues one POST, returning the request it sent and how it settled. -/
def generateProductListing (clothingImage modelImage : File)
    (outputFilename : Option String) (fr : FetchResult) :
    List FormPart × Except String ApiResponse :=
  (buildFormData clothingImage modelImage outputFilename, fetchOutcome fr)

/-- `description.split('.')[0]` (stores.ts:71): text up to the first period,
or the whole string when it has no period. -/
def firstSentence (description : String) : String :=
  String.mk ((splitOnChar '.' description.data).headD [])

/-- `word.charAt(0).toUpperCase() + word.slice(1)` (stores.ts:85). -/
def capitalizeWord : List Char → List Char
  | [] => []
  | c :: cs => c.toUpper :: cs

/-- `extractProductName` (stores.ts:69-87). -/
def extractProductName (description : String) : String :=
  let fs := firstSentence description
  if strIncludes (strToLower fs) "hat" then "Premium Straw Hat"
  else if strIncludes (strToLower fs) "shirt" then "Designer Shirt"
  else if strIncludes (strToLower fs) "dress" then "Elegant Dress"
  else if strIncludes (strToLower fs) "jacket" then "Stylish Jacket"
  else
    let words := (splitOnChar ' ' fs.data).take 3
    String.mk (List.intercalate [' '] (words.map capitalizeWord))

/-- `basePrice` after the five ordered adjustments of `generatePrice`
(stores.ts:95-101): start at 50; "hat" in the description reassigns it to 45;
then the four additive rules. -/
def basePrice (description : String) (tags : List String) : Int :=
  let desc := strToLower description
  let tagList := tags.map strToLower
  let b0 : Int := 50
  let b1 := if strIncludes desc "hat" then 45 else b0
  let b2 := if strIncludes desc "premium" || strIncludes desc "classic" then b1 + 20 else b1
  let b3 := if tagList.contains "luxury" || tagList.contains "designer" then b2 + 30 else b2
  let b4 := if tagList.contains "handmade" || tagList.contains "artisan" then b3 + 25 else b3
  if strIncludes desc "straw" && strIncludes desc "wide-brim" then b4 + 15 else b4

/-- `generatePrice` (stores.ts:90-108); `variation` stands for
`Math.floor(Math.random() * 20) - 10`, an integer in `[-10, 9]`. -/
def generatePrice (description : String) (tags : List String) (variation : Int) : String :=
  let finalPrice : Int := max (basePrice description tags + variation) 25
  "$" ++ toString finalPrice ++ ".00"

/-- `mapApiResponseToProductCard` (stores.ts:111-123); `now` is `Date.now()`. -/
def mapApiResponseToProductCard (now : Nat) (variation : Int)
    (apiResponse : ApiResponse) : ProductCard :=
  { id := toString now
    productName := extractProductName apiResponse.clothing_analysis.description
    price := generatePrice apiResponse.clothing_analysis.description
              apiResponse.clothing_analysis.tags variation
    description := apiResponse.clothing_analysis.description
    tags := apiResponse.clothing_analysis.tags
    modelImage := "http://localhost:8000" ++ apiResponse.generated_image_url
    productImage := "http://localhost:8000" ++ apiResponse.generated_image_url }

/-- The MIME allowlist of `generateProductCard` (stores.ts:143). -/
def allowedTypes : List String :=
  ["image/jpeg", "image/jpg", "image/png", "image/gif", "image/bmp", "image/webp"]

/-- Error message for a disallowed clothing-image MIME type (stores.ts:145). -/
def clothingTypeError : String :=
  "Clothing image must be a valid image file (jpg, jpeg, png, gif, bmp, webp)"

/-- Error message for a disallowed model-image MIME type (stores.ts:148). -/
def modelTypeError : String :=
  "Model image must be a valid image file (jpg, jpeg, png, gif, bmp, webp)"

/-- Settled result of one `generateProductCard` call: the final store state
and the list of network requests issued during the call. -/
structure GenOutcome where
  state : ProductStoreState
  requests : List (List FormPart)
deriving DecidableEq

/-- `generateProductCard` (stores.ts:133-171), as a function from the prior
store state to the settled state. The action first sets
`{isGenerating: true, error: null}`; since every path ends in a `set` that
fixes `isGenerating` and `error` and either fixes or leaves `generatedCards`,
the settled state is as below. The `!clothingImage || !modelImage` guard
(stores.ts:138) never fires here because a `File` value is always truthy. -/
def generateProductCard (clothingImage modelImage : File)
    (outputFilename : Option String) (fr : FetchResult) (now : Nat)
    (variation : Int) (st : ProductStoreState) : GenOutcome :=
  if ¬ (allowedTypes.contains clothingImage.type) then
    { state := { isGenerating := false, generatedCards := st.generatedCards,
                 error := some clothingTypeError }
      requests := [] }
  else if ¬ (allowedTypes.contains modelImage.type) then
    { state := { isGenerating := false, generatedCards := st.generatedCards,
                 error := some modelTypeError }
      requests := [] }
  else
    let listing := generateProductListing clothingImage modelImage outputFilename fr
    match listing.2 with
    | .ok resp =>
        { state := { isGenerating := false,
                     generatedCards :=
                       mapApiResponseToProductCard now variation resp :: st.generatedCards,
                     error := none }
          requests := [listing.1] }
    | .error msg =>
        { state := { isGenerating := false, generatedCards := st.generatedCards,
                     error := some msg }
          requests := [listing.1] }

/-- `clearCards` (stores.ts:173-175). -/
def clearCards (st : ProductStoreState) : ProductStoreState :=
  { st with generatedCards := [], error := none }

/-- `setError` (stores.ts:177-179). -/
def setError (e : Option String) (st : ProductStoreState) : ProductStoreState :=
  { st with error := e }

example : extractProductName "A classic straw wide-brim hat with leather trim." =
    "Premium Straw Hat" := by decide

example : extractProductName "red velvet cushion cover. soft" = "Red Velvet Cushion" := by
  decide

example : extractProductName "" = "" := by decide

example : generatePrice "A classic straw wide-brim hat with leather trim."
    ["handmade", "luxury"] 0 = "$135.00" := by decide

/-! ## Sample fixtures used by witness theorems -/

/-- A sample previously generated card. -/
def sampleCard : ProductCard :=
  ⟨"0", "Old Card", "$50.00", "an old card", ["old"], "m", "p"⟩

/-- A sample prior store state with one card and a stale error. -/
def sampleState : ProductStoreState :=
  ⟨false, [sampleCard], some "stale error"⟩

/-- A sample successful backend response. -/
def sampleResp : ApiResponse :=
  ⟨true, "ok", ⟨"A hat.", ["luxury"]⟩, "/static/gen.png", "gen.png"⟩

/-! ## Helper lemmas -/

theorem strIncludes_eq_true {s pat : String} :
    strIncludes s pat = true ↔ pat.data <:+: s.data := by
  simp [strIncludes]

theorem strIncludes_of_eq_append (s pre pat suf : String) (h : s = pre ++ pat ++ suf) :
    strIncludes s pat = true := by
  subst h
  rw [strIncludes_eq_true, String.data_append, String.data_append]
  exact ⟨pre.data, suf.data, by simp⟩

theorem basePrice_ge (description : String) (tags : List String) :
    45 ≤ basePrice description tags := by
  unfold basePrice
  dsimp only
  split_ifs <;> omega

theorem generatePrice_eq_toNat (description : String) (tags : List String) (variation : Int) :
    generatePrice description tags variation
      = "$" ++ toString (max (basePrice description tags + variation) 25).toNat ++ ".00" := by
  have h : (0 : Int) ≤ max (basePrice description tags + variation) 25 :=
    le_trans (by norm_num) (le_max_right _ _)
  obtain ⟨m, hm⟩ := Int.eq_ofNat_of_zero_le h
  show "$" ++ toString (max (basePrice description tags + variation) 25) ++ ".00"
      = "$" ++ toString (max (basePrice description tags + variation) 25).toNat ++ ".00"
  rw [hm]
  rfl

theorem digitChar_isDigit {n : Nat} (h : n < 10) : (Nat.digitChar n).isDigit = true := by
  interval_cases n <;> decide

theorem toDigitsCore_isDigit (f : Nat) :
    ∀ (n : Nat) (acc : List Char), (∀ c ∈ acc, c.isDigit = true) →
      ∀ c ∈ Nat.toDigitsCore 10 f n acc, c.isDigit = true := by
  induction f with
  | zero => intro n acc hacc; simpa [Nat.toDigitsCore] using hacc
  | succ f ih =>
    intro n acc hacc c hc
    simp only [Nat.toDigitsCore] at hc
    have hmem : ∀ d ∈ Nat.digitChar (n % 10) :: acc, d.isDigit = true := by
      intro d hd
      rcases List.mem_cons.mp hd with h | h
      · subst h; exact digitChar_isDigit (Nat.mod_lt _ (by norm_num))
      · exact hacc _ h
    split at hc
    · exact hmem _ hc
    · exact ih _ _ hmem c hc

theorem toDigitsCore_ne_nil (f : Nat) :
    ∀ (n : Nat) (acc : List Char), acc ≠ [] → Nat.toDigitsCore 10 f n acc ≠ [] := by
  induction f with
  | zero => intro n acc hacc; simpa [Nat.toDigitsCore] using hacc
  | succ f ih =>
    intro n acc hacc
    simp only [Nat.toDigitsCore]
    split
    · simp
    · exact ih _ _ (by simp)

theorem natToString_digits (n : Nat) :
    (toString n).data ≠ [] ∧ ∀ c ∈ (toString n).data, c.isDigit = true := by
  have hdata : (toString n).data = Nat.toDigitsCore 10 (n + 1) n [] := rfl
  rw [hdata]
  constructor
  · simp only [Nat.toDigitsCore]
    split
    · simp
    · exact toDigitsCore_ne_nil _ _ _ (by simp)
  · exact toDigitsCore_isDigit _ _ _ (by simp)

/-- `s` matches the regular expression `^\$\d+\.00$`: a dollar sign, one or
more decimal digits, then `.00`. -/
def matchesPriceFormat (s : String) : Prop :=
  ∃ ds : List Char, ds ≠ [] ∧ (∀ c ∈ ds, c.isDigit = true) ∧
    s.data = '$' :: (ds ++ ['.', '0', '0'])

/-! ## Claim theorems -/

/-- C8: `clearCards` empties `generatedCards`, clears `lastError`, and leaves
`isGenerating` unchanged, whatever the prior state was. -/
theorem clearCards_spec (st : ProductStoreState) :
    (clearCards st).generatedCards = [] ∧ (clearCards st).error = none ∧
    (clearCards st).isGenerating = st.isGenerating :=
  ⟨rfl, rfl, rfl⟩

/-- C5: whenever the lowercased first sentence of the description contains
`"hat"`, `extractProductName` returns the fixed label `"Premium Straw Hat"`
regardless of other content; and the keywords `"hat"`, `"shirt"`, `"dress"`,
`"jacket"` are tested in that priority order, the first match determining the
fixed label. -/
theorem extractProductName_keyword_priority (description : String) :
    (strIncludes (strToLower (firstSentence description)) "hat" = true →
      extractProductName description = "Premium Straw Hat") ∧
    (strIncludes (strToLower (firstSentence description)) "hat" = false →
      strIncludes (strToLower (firstSentence description)) "shirt" = true →
      extractProductName description = "Designer Shirt") ∧
    (strIncludes (strToLower (firstSentence description)) "hat" = false →
      strIncludes (strToLower (firstSentence description)) "shirt" = false →
      strIncludes (strToLower (firstSentence description)) "dress" = true →
      extractProductName description = "Elegant Dress") ∧
    (strIncludes (strToLower (firstSentence description)) "hat" = false →
      strIncludes (strToLower (firstSentence description)) "shirt" = false →
      strIncludes (strToLower (firstSentence description)) "dress" = false →
      strIncludes (strToLower (firstSentence description)) "jacket" = true →
      extractProductName description = "Stylish Jacket") := by
  refine ⟨fun h1 => ?_, fun h1 h2 => ?_, fun h1 h2 h3 => ?_, fun h1 h2 h3 h4 => ?_⟩ <;>
    simp [extractProductName, *]

/-- Witness for C5 at the concrete description `"A nice hat"`. -/
theorem extractProductName_keyword_priority_witness :
    strIncludes (strToLower (firstSentence "A nice hat")) "hat" = true ∧
    extractProductName "A nice hat" = "Premium Straw Hat" :=
  ⟨by decide, (extractProductName_keyword_priority "A nice hat").1 (by decide)⟩

/-- C2: when either image's declared MIME type is outside the allowlist,
`generateProductCard` issues no network request, ends with
`isGenerating = false`, leaves `generatedCards` unchanged, and stores an
error message naming which image (clothing first, then model) failed. -/
theorem generateProductCard_invalid_mime (clothingImage modelImage : File)
    (outputFilename : Option String) (fr : FetchResult) (now : Nat) (variation : Int)
    (st : ProductStoreState)
    (h : allowedTypes.contains clothingImage.type = false ∨
         allowedTypes.contains modelImage.type = false) :
    (generateProductCard clothingImage modelImage outputFilename fr now variation st).requests
      = [] ∧
    (generateProductCard clothingImage modelImage outputFilename fr now variation
      st).state.isGenerating = false ∧
    (generateProductCard clothingImage modelImage outputFilename fr now variation
      st).state.generatedCards = st.generatedCards ∧
    (allowedTypes.contains clothingImage.type = false →
      (generateProductCard clothingImage modelImage outputFilename fr now variation
        st).state.error = some clothingTypeError) ∧
    (allowedTypes.contains clothingImage.type = true →
      allowedTypes.contains modelImage.type = false →
      (generateProductCard clothingImage modelImage outputFilename fr now variation
        st).state.error = some modelTypeError) := by
  rcases h with h | h
  · simp_all [generateProductCard]
  · by_cases hc : allowedTypes.contains clothingImage.type = true <;>
      simp_all [generateProductCard]

/-- Witness for C2: a `text/plain` clothing image against a valid model
image, with a non-empty prior card list. -/
theorem generateProductCard_invalid_mime_witness :
    (allowedTypes.contains (File.mk "text/plain").type = false ∨
     allowedTypes.contains (File.mk "image/png").type = false) ∧
    (generateProductCard ⟨"text/plain"⟩ ⟨"image/png"⟩ none (.ok sampleResp) 0 0
      sampleState).requests = [] ∧
    (generateProductCard ⟨"text/plain"⟩ ⟨"image/png"⟩ none (.ok sampleResp) 0 0
      sampleState).state.isGenerating = false ∧
    (generateProductCard ⟨"text/plain"⟩ ⟨"image/png"⟩ none (.ok sampleResp) 0 0
      sampleState).state.generatedCards = sampleState.generatedCards ∧
    (generateProductCard ⟨"text/plain"⟩ ⟨"image/png"⟩ none (.ok sampleResp) 0 0
      sampleState).state.error = some clothingTypeError := by
  have h := generateProductCard_invalid_mime ⟨"text/plain"⟩ ⟨"image/png"⟩ none
    (.ok sampleResp) 0 0 sampleState (Or.inl (by decide))
  exact ⟨Or.inl (by decide), h.1, h.2.1, h.2.2.1, h.2.2.2.1 (by decide)⟩

/-- C4: on a successful remote call with valid MIME types, the settled state
prepends the newly mapped card to the prior list (so index 0 is the new card
and all prior entries keep their relative order), clears the error, and ends
with `isGenerating = false`. -/
theorem generateProductCard_success (clothingImage modelImage : File)
    (outputFilename : Option String) (resp : ApiResponse) (now : Nat) (variation : Int)
    (st : ProductStoreState)
    (hc : allowedTypes.contains clothingImage.type = true)
    (hm : allowedTypes.contains modelImage.type = true) :
    (generateProductCard clothingImage modelImage outputFilename (.ok resp) now variation
      st).state.generatedCards
      = mapApiResponseToProductCard now variation resp :: st.generatedCards ∧
    (generateProductCard clothingImage modelImage outputFilename (.ok resp) now variation
      st).state.error = none ∧
    (generateProductCard clothingImage modelImage outputFilename (.ok resp) now variation
      st).state.isGenerating = false := by
  simp_all [generateProductCard, generateProductListing, fetchOutcome]

/-- Witness for C4 at concrete valid inputs with a non-empty prior list. -/
theorem generateProductCard_success_witness :
    allowedTypes.contains (File.mk "image/png").type = true ∧
    allowedTypes.contains (File.mk "image/jpeg").type = true ∧
    ((generateProductCard ⟨"image/png"⟩ ⟨"image/jpeg"⟩ none (.ok sampleResp) 5 0
      sampleState).state.generatedCards
      = mapApiResponseToProductCard 5 0 sampleResp :: sampleState.generatedCards ∧
    (generateProductCard ⟨"image/png"⟩ ⟨"image/jpeg"⟩ none (.ok sampleResp) 5 0
      sampleState).state.error = none ∧
    (generateProductCard ⟨"image/png"⟩ ⟨"image/jpeg"⟩ none (.ok sampleResp) 5 0
      sampleState).state.isGenerating = false) :=
  ⟨by decide, by decide,
    generateProductCard_success ⟨"image/png"⟩ ⟨"image/jpeg"⟩ none sampleResp 5 0
      sampleState (by decide) (by decide)⟩

/-- C10: with valid images, passing the empty string as the optional output
name yields exactly the same single request as omitting the argument, and
that request has the two image parts and no `output_filename` part. -/
theorem generateProductCard_empty_output_filename (clothingImage modelImage : File)
    (fr : FetchResult) (now : Nat) (variation : Int) (st : ProductStoreState)
    (hc : allowedTypes.contains clothingImage.type = true)
    (hm : allowedTypes.contains modelImage.type = true) :
    (generateProductCard clothingImage modelImage (some "") fr now variation st).requests
      = (generateProductCard clothingImage modelImage none fr now variation st).requests ∧
    (generateProductCard clothingImage modelImage (some "") fr now variation st).requests
      = [[FormPart.filePart "clothing_image" clothingImage,
          FormPart.filePart "model_image" modelImage]] := by
  cases fr <;>
    simp_all [generateProductCard, generateProductListing, fetchOutcome, buildFormData]

/-- Witness for C10 at concrete valid inputs. -/
theorem generateProductCard_empty_output_filename_witness :
    allowedTypes.contains (File.mk "image/png").type = true ∧
    allowedTypes.contains (File.mk "image/jpeg").type = true ∧
    ((generateProductCard ⟨"image/png"⟩ ⟨"image/jpeg"⟩ (some "") (.ok sampleResp) 0 0
        sampleState).requests
      = (generateProductCard ⟨"image/png"⟩ ⟨"image/jpeg"⟩ none (.ok sampleResp) 0 0
        sampleState).requests ∧
    (generateProductCard ⟨"image/png"⟩ ⟨"image/jpeg"⟩ (some "") (.ok sampleResp) 0 0
        sampleState).requests
      = [[FormPart.filePart "clothing_image" ⟨"image/png"⟩,
          FormPart.filePart "model_image" ⟨"image/jpeg"⟩]]) :=
  ⟨by decide, by decide,
    generateProductCard_empty_output_filename ⟨"image/png"⟩ ⟨"image/jpeg"⟩
      (.ok sampleResp) 0 0 sampleState (by decide) (by decide)⟩

/-- C1: for every description, tag list, and perturbation `p` in `[-10, 9]`,
`generatePrice` returns `"$" ++ n ++ ".00"` where `n = max (base + p) 25` and
`base` is `basePrice` (start at 50; "hat" reassigns to 45 before the additive
rules; +20 for "premium"/"classic"; +30 for tag "luxury"/"designer"; +25 for
tag "handmade"/"artisan"; +15 for "straw" and "wide-brim"); consequently the
output matches `^\$\d+\.00$` with numeric part at least 25. -/
theorem generatePrice_spec (description : String) (tags : List String) (variation : Int)
    (h1 : -10 ≤ variation) (h2 : variation ≤ 9) :
    ∃ n : Nat, (n : Int) = max (basePrice description tags + variation) 25 ∧
      generatePrice description tags variation = "$" ++ toString n ++ ".00" ∧
      25 ≤ n ∧ matchesPriceFormat (generatePrice description tags variation) := by
  refine ⟨(max (basePrice description tags + variation) 25).toNat, ?_, ?_, ?_, ?_⟩
  · exact Int.toNat_of_nonneg (le_trans (by norm_num) (le_max_right _ _))
  · exact generatePrice_eq_toNat description tags variation
  · have h := le_max_right (basePrice description tags + variation) (25 : Int)
    omega
  · rw [generatePrice_eq_toNat description tags variation]
    obtain ⟨hne, hdig⟩ :=
      natToString_digits (max (basePrice description tags + variation) 25).toNat
    refine ⟨(toString (max (basePrice description tags + variation) 25).toNat).data,
      hne, hdig, ?_⟩
    rw [String.data_append, String.data_append]
    rfl

/-- Witness for C1 at description `"x"`, no tags, perturbation `0`. -/
theorem generatePrice_spec_witness :
    (-10 ≤ (0 : Int)) ∧ ((0 : Int) ≤ 9) ∧
    ∃ n : Nat, (n : Int) = max (basePrice "x" [] + 0) 25 ∧
      generatePrice "x" [] 0 = "$" ++ toString n ++ ".00" ∧
      25 ≤ n ∧ matchesPriceFormat (generatePrice "x" [] 0) :=
  ⟨by norm_num, by norm_num, generatePrice_spec "x" [] 0 (by norm_num) (by norm_num)⟩

/-- C9: the numeric part of every price is at least 35, because the minimum
reachable base is 45 (the "hat" reassignment) and the perturbation is at
least -10, so the floor of 25 never binds. -/
theorem generatePrice_min35 (description : String) (tags : List String) (variation : Int)
    (h1 : -10 ≤ variation) (h2 : variation ≤ 9) :
    ∃ n : Nat, generatePrice description tags variation = "$" ++ toString n ++ ".00" ∧
      35 ≤ n := by
  refine ⟨(max (basePrice description tags + variation) 25).toNat,
    generatePrice_eq_toNat description tags variation, ?_⟩
  have hb := basePrice_ge description tags
  have h35 : (35 : Int) ≤ max (basePrice description tags + variation) 25 :=
    le_trans (by omega) (le_max_left _ _)
  omega

/-- Witness for C9 at description `"hat"`, no tags, perturbation `-10`,
where the minimum value 35 is attained. -/
theorem generatePrice_min35_witness :
    (-10 ≤ (-10 : Int)) ∧ ((-10 : Int) ≤ 9) ∧
    ∃ n : Nat, generatePrice "hat" [] (-10) = "$" ++ toString n ++ ".00" ∧ 35 ≤ n :=
  ⟨by norm_num, by norm_num, generatePrice_min35 "hat" [] (-10) (by norm_num) (by norm_num)⟩

/-- C7: for the scenario description
`"A classic straw wide-brim hat with leather trim."` with tags
`["handmade", "luxury"]`, the product name is exactly `"Premium Straw Hat"`
and the price is `$<n>.00` with `125 ≤ n ≤ 144` (pre-perturbation base
45 + 20 + 30 + 25 + 15 = 135). -/
theorem scenario_hat_listing (variation : Int)
    (h1 : -10 ≤ variation) (h2 : variation ≤ 9) :
    extractProductName "A classic straw wide-brim hat with leather trim."
      = "Premium Straw Hat" ∧
    ∃ n : Nat, generatePrice "A classic straw wide-brim hat with leather trim."
        ["handmade", "luxury"] variation = "$" ++ toString n ++ ".00" ∧
      125 ≤ n ∧ n ≤ 144 := by
  refine ⟨by decide,
    ⟨(max (basePrice "A classic straw wide-brim hat with leather trim."
        ["handmade", "luxury"] + variation) 25).toNat,
      generatePrice_eq_toNat _ _ _, ?_, ?_⟩⟩ <;>
  · have hb : basePrice "A classic straw wide-brim hat with leather trim."
        ["handmade", "luxury"] = 135 := by decide
    rw [hb]
    have hmax : max (135 + variation) 25 = 135 + variation :=
      max_eq_left (by omega)
    rw [hmax]
    omega

/-- Witness for C7 at perturbation `0`. -/
theorem scenario_hat_listing_witness :
    (-10 ≤ (0 : Int)) ∧ ((0 : Int) ≤ 9) ∧
    (extractProductName "A classic straw wide-brim hat with leather trim."
      = "Premium Straw Hat" ∧
    ∃ n : Nat, generatePrice "A classic straw wide-brim hat with leather trim."
        ["handmade", "luxury"] 0 = "$" ++ toString n ++ ".00" ∧
      125 ≤ n ∧ n ≤ 144) :=
  ⟨by norm_num, by norm_num, scenario_hat_listing 0 (by norm_num) (by norm_num)⟩

/-- C3: every failing attempt (invalid clothing MIME, invalid model MIME,
transport failure, or non-success HTTP status) leaves `generatedCards`
unchanged, ends with `isGenerating = false`, and stores the failure's own
message; in particular an HTTP 500 response with body `"internal error"`
yields a stored message containing both `"500"` and `"internal error"`. -/
theorem generateProductCard_failure (clothingImage modelImage : File)
    (outputFilename : Option String) (now : Nat) (variation : Int)
    (st : ProductStoreState) :
    (∀ fr : FetchResult, allowedTypes.contains clothingImage.type = false →
      (generateProductCard clothingImage modelImage outputFilename fr now variation
        st).state.generatedCards = st.generatedCards ∧
      (generateProductCard clothingImage modelImage outputFilename fr now variation
        st).state.isGenerating = false ∧
      (generateProductCard clothingImage modelImage outputFilename fr now variation
        st).state.error = some clothingTypeError) ∧
    (∀ fr : FetchResult, allowedTypes.contains clothingImage.type = true →
      allowedTypes.contains modelImage.type = false →
      (generateProductCard clothingImage modelImage outputFilename fr now variation
        st).state.generatedCards = st.generatedCards ∧
      (generateProductCard clothingImage modelImage outputFilename fr now variation
        st).state.isGenerating = false ∧
      (generateProductCard clothingImage modelImage outputFilename fr now variation
        st).state.error = some modelTypeError) ∧
    (∀ (fr : FetchResult) (msg : String),
      allowedTypes.contains clothingImage.type = true →
      allowedTypes.contains modelImage.type = true →
      fetchOutcome fr = .error msg →
      (generateProductCard clothingImage modelImage outputFilename fr now variation
        st).state.generatedCards = st.generatedCards ∧
      (generateProductCard clothingImage modelImage outputFilename fr now variation
        st).state.isGenerating = false ∧
      (generateProductCard clothingImage modelImage outputFilename fr now variation
        st).state.error = some msg) ∧
    (∀ statusText : String,
      allowedTypes.contains clothingImage.type = true →
      allowedTypes.contains modelImage.type = true →
      ∃ msg : String,
        (generateProductCard clothingImage modelImage outputFilename
          (.httpError 500 statusText "internal error") now variation st).state.error
          = some msg ∧
        strIncludes msg "500" = true ∧
        strIncludes msg "internal error" = true ∧
        (generateProductCard clothingImage modelImage outputFilename
          (.httpError 500 statusText "internal error") now variation
          st).state.generatedCards = st.generatedCards ∧
        (generateProductCard clothingImage modelImage outputFilename
          (.httpError 500 statusText "internal error") now variation
          st).state.isGenerating = false) := by
  refine ⟨?_, ?_, ?_, ?_⟩
  · intro fr h
    simp_all [generateProductCard]
  · intro fr hc hm
    simp_all [generateProductCard]
  · intro fr msg hc hm herr
    simp_all [generateProductCard, generateProductListing]
  · intro statusText hc hm
    refine ⟨"API call failed: " ++ toString (500 : Nat) ++ " " ++ statusText ++ " - "
        ++ "internal error", ?_, ?_, ?_, ?_, ?_⟩
    · simp_all [generateProductCard, generateProductListing, fetchOutcome]
    · apply strIncludes_of_eq_append _ "API call failed: " _
        (" " ++ statusText ++ " - " ++ "internal error")
      have h500 : toString (500 : Nat) = "500" := by decide
      rw [h500]
      simp only [String.append_assoc]
    · apply strIncludes_of_eq_append _
        ("API call failed: " ++ toString (500 : Nat) ++ " " ++ statusText ++ " - ") _ ""
      simp [String.append_assoc]
    · simp_all [generateProductCard, generateProductListing, fetchOutcome]
    · simp_all [generateProductCard, generateProductListing, fetchOutcome]

/-- Witness for C3: the HTTP-500 scenario against valid images and a
non-empty prior card list. -/
theorem generateProductCard_failure_witness :
    ∃ msg : String,
      (generateProductCard ⟨"image/png"⟩ ⟨"image/jpeg"⟩ none
        (.httpError 500 "Internal Server Error" "internal error") 0 0
        sampleState).state.error = some msg ∧
      strIncludes msg "500" = true ∧
      strIncludes msg "internal error" = true ∧
      (generateProductCard ⟨"image/png"⟩ ⟨"image/jpeg"⟩ none
        (.httpError 500 "Internal Server Error" "internal error") 0 0
        sampleState).state.generatedCards = sampleState.generatedCards ∧
      (generateProductCard ⟨"image/png"⟩ ⟨"image/jpeg"⟩ none
        (.httpError 500 "Internal Server Error" "internal error") 0 0
        sampleState).state.isGenerating = false :=
  (generateProductCard_failure ⟨"image/png"⟩ ⟨"image/jpeg"⟩ none 0 0 sampleState).2.2.2
    "Internal Server Error" (by decide) (by decide)

theorem splitOnChar_ne_nil (sep : Char) (l : List Char) : splitOnChar sep l ≠ [] := by
  cases l with
  | nil => simp [splitOnChar]
  | cons c cs =>
    simp only [splitOnChar]
    split
    · simp
    · split <;> simp

theorem splitOnChar_cons_ne_nil (sep : Char) (cs : List Char) :
    ∃ w ws, splitOnChar sep cs = w :: ws := by
  cases h : splitOnChar sep cs with
  | nil => exact absurd h (splitOnChar_ne_nil sep cs)
  | cons w ws => exact ⟨w, ws, rfl⟩

theorem intercalate_cons_cons (s a b : List Char) (t : List (List Char)) :
    List.intercalate s (a :: b :: t) = a ++ s ++ List.intercalate s (b :: t) := by
  simp [List.intercalate]

theorem intercalate_head_ne_nil (x : List Char) (xs : List (List Char)) (hx : x ≠ []) :
    List.intercalate [' '] (x :: xs) ≠ [] := by
  cases xs with
  | nil => simpa [List.intercalate] using hx
  | cons b t =>
    rw [intercalate_cons_cons]
    simp

theorem take3_capitalized_ne_nil (l : List Char) (hl : l ≠ []) :
    List.intercalate [' '] (((splitOnChar ' ' l).take 3).map capitalizeWord) ≠ [] := by
  cases l with
  | nil => exact absurd rfl hl
  | cons c cs =>
    obtain ⟨w, ws, hws⟩ := splitOnChar_cons_ne_nil ' ' cs
    by_cases hc : c = ' '
    · subst hc
      have hsplit : splitOnChar ' ' (' ' :: cs) = [] :: w :: ws := by
        simp [splitOnChar, hws]
      rw [hsplit]
      have ht : (([] : List Char) :: w :: ws).take 3 = [] :: w :: ws.take 1 := rfl
      rw [ht]
      have hm : (([] : List Char) :: w :: ws.take 1).map capitalizeWord
          = [] :: capitalizeWord w :: (ws.take 1).map capitalizeWord := rfl
      rw [hm, intercalate_cons_cons]
      simp
    · have hsplit : splitOnChar ' ' (c :: cs) = (c :: w) :: ws := by
        simp only [splitOnChar, if_neg hc, hws]
      rw [hsplit]
      have ht : ((c :: w) :: ws).take 3 = (c :: w) :: ws.take 2 := rfl
      rw [ht]
      have hm : ((c :: w) :: ws.take 2).map capitalizeWord
          = (c.toUpper :: w) :: (ws.take 2).map capitalizeWord := rfl
      rw [hm]
      exact intercalate_head_ne_nil _ _ (by simp)

/-- C6 counterexample, two concrete keyword-free inputs. First, the empty
description matches no keyword, yet `extractProductName` returns the empty
string, refuting the claim's unconditional "non-empty" guarantee. Second, for
`"a\tb c d e"` the code splits the first sentence on the space character
only, so the tab-joined token `"a\tb"` counts as one word and the result is
`"A\tb C D"`: it draws on `"d"`, the fourth whitespace-separated word, and
leaves `"b"`, the second whitespace-separated word, uncapitalized after the
tab, refuting "built from at most the first three whitespace-separated
words, each with its first letter capitalized". -/
theorem extractProductName_empty_counterexample :
    (strIncludes (strToLower (firstSentence "")) "hat" = false ∧
     strIncludes (strToLower (firstSentence "")) "shirt" = false ∧
     strIncludes (strToLower (firstSentence "")) "dress" = false ∧
     strIncludes (strToLower (firstSentence "")) "jacket" = false ∧
     extractProductName "" = "") ∧
    (strIncludes (strToLower (firstSentence "a\tb c d e")) "hat" = false ∧
     strIncludes (strToLower (firstSentence "a\tb c d e")) "shirt" = false ∧
     strIncludes (strToLower (firstSentence "a\tb c d e")) "dress" = false ∧
     strIncludes (strToLower (firstSentence "a\tb c d e")) "jacket" = false ∧
     extractProductName "a\tb c d e" = "A\tb C D") := by decide

/-- C6 (amended): for every description whose first sentence is non-empty and
matches none of the four keywords, `extractProductName` returns the join of
the first at most three space-separated words (split on the space character
only, so tab- or newline-joined tokens count as one word) of the first
sentence, each
with its first character capitalized and the rest preserved, and this result
is non-empty. -/
theorem extractProductName_default (description : String)
    (hne : firstSentence description ≠ "")
    (h1 : strIncludes (strToLower (firstSentence description)) "hat" = false)
    (h2 : strIncludes (strToLower (firstSentence description)) "shirt" = false)
    (h3 : strIncludes (strToLower (firstSentence description)) "dress" = false)
    (h4 : strIncludes (strToLower (firstSentence description)) "jacket" = false) :
    extractProductName description
      = String.mk (List.intercalate [' ']
          (((splitOnChar ' ' (firstSentence description).data).take 3).map
            capitalizeWord)) ∧
    extractProductName description ≠ "" := by
  have heq : extractProductName description
      = String.mk (List.intercalate [' ']
          (((splitOnChar ' ' (firstSentence description).data).take 3).map
            capitalizeWord)) := by
    simp [extractProductName, h1, h2, h3, h4]
  refine ⟨heq, ?_⟩
  rw [heq]
  intro hcon
  refine take3_capitalized_ne_nil (firstSentence description).data ?_
    (congrArg String.data hcon)
  intro hd
  exact hne (String.ext (by simpa using hd))

/-- Witness for C6 (amended) at a concrete keyword-free description. -/
theorem extractProductName_default_witness :
    firstSentence "red velvet cushion cover. soft" ≠ "" ∧
    (extractProductName "red velvet cushion cover. soft"
      = String.mk (List.intercalate [' ']
          (((splitOnChar ' '
              (firstSentence "red velvet cushion cover. soft").data).take 3).map
            capitalizeWord)) ∧
    extractProductName "red velvet cushion cover. soft" ≠ "") :=
  ⟨by decide,
    extractProductName_default "red velvet cushion cover. soft" (by decide) (by decide)
      (by decide) (by decide) (by decide)⟩
